import Mathlib

/-!
Verification of the fund-analyzer analytics core.

A shallow embedding, in Lean 4, of the algorithmic core of the
`astrbot_plugin_fund_analyzer` repository, together with theorems checking the
frozen claims about it.

Conventions of the embedding:

* Python floats are modelled as exact rationals (`ℚ`).  A Python `float` value
  may also be `nan`, so where a cell of a provider table is involved we use an
  explicit `PyFloat` type with a `nan` constructor.
* Python code that can raise an exception is modelled with `Except`: an
  `Except.error` value is the model of an uncaught Python exception
  propagating out of the function.
* Python truthiness tests on `Optional[float]` values (`if x else None`)
  are modelled explicitly: `None` and `0.0` are falsy, everything else truthy.
* `list[-n:]`, `list[-1]`, `list[-k]` negative indexing is modelled with
  `List.drop`/`List.getD` on the same index arithmetic.
* `dict` results that are either empty (`{}`) or carry a fixed key set are
  modelled as `Option` of a structure: `none` is the empty mapping `{}`,
  `some r` the populated mapping.  A key holding Python `None` is an
  `Option _` field that is `none`.

The functions are transcribed from `src/main.py` (`FundAnalyzer`) and
`src/stock/analyzer.py` (`StockAnalyzer`) of the repository.
-/

/- The arithmetic of `Rat` is marked `@[irreducible]` in the library, which
blocks `decide`-style evaluation of the embedded functions on concrete
inputs.  Re-allow unfolding for this file; this affects elaboration only (the
kernel never respects reducibility attributes), so no proof becomes easier. -/
attribute [local semireducible] Rat.mul Rat.add Rat.sub Rat.inv Rat.ofScientific

/-! ## Python scalar values and the `_safe_float` normalisation

`main.py` (lines 97-111) and `stock/analyzer.py` (lines 54-66) contain the same
helper `_safe_float(value, default=0.0)`.  Its input is an arbitrary Python
object coming from a pandas cell.  We model the relevant universe of Python
values: `None`, float objects (possibly NaN), ints, strings that `float()`
accepts (carrying the parsed value), strings that `float()` rejects, and other
objects without a float conversion. -/

/-- A Python `float` object: either NaN or a finite value (modelled exactly). -/
inductive PyFloat where
  | nan : PyFloat
  | fin (q : ℚ) : PyFloat
deriving DecidableEq, Repr

/-- A Python value as it can appear in a pandas cell handed to `_safe_float`.
`pstrNum s f` is a string for which the builtin `float()` succeeds and yields
`f`; `pstrBad s` is a string `float()` rejects with `ValueError`; `pother`
is any other object, for which `float()` raises `TypeError`. -/
inductive PyValue where
  | pnone : PyValue
  | pfloat (f : PyFloat) : PyValue
  | pint (n : ℤ) : PyValue
  | pstrNum (s : String) (f : PyFloat) : PyValue
  | pstrBad (s : String) : PyValue
  | pother (id : ℕ) : PyValue
deriving DecidableEq, Repr

/-- Errors the builtin `float()` can raise on the modelled universe. -/
inductive ConvErr where
  | valueError : ConvErr
  | typeError : ConvErr
deriving DecidableEq, Repr

/-- The Python builtin `float(value)` on the modelled universe of values:
identity on float objects, exact conversion on ints, the parsed value on
parsable strings; `ValueError` on unparsable strings, `TypeError` on `None`
and on objects without a float conversion. -/
def float_builtin : PyValue → Except ConvErr PyFloat
  | .pnone => .error .typeError
  | .pfloat f => .ok f
  | .pint n => .ok (.fin (n : ℚ))
  | .pstrNum _ f => .ok f
  | .pstrBad _ => .error .valueError
  | .pother _ => .error .typeError

/-- `isinstance(value, float) and math.isnan(value)`. -/
def is_float_nan : PyValue → Bool
  | .pfloat .nan => true
  | _ => false

/-- `_safe_float(value, default)` from `main.py` lines 97-111 (the copy in
`stock/analyzer.py` lines 54-66 is textually identical): `None` maps to the
default; a NaN float object maps to the default; otherwise `float(value)` is
attempted, a `ValueError`/`TypeError` is caught and maps to the default, a NaN
conversion result maps to the default, and any other result is returned.  On
the modelled universe every branch returns, so the Lean model is a total
function into `ℚ`. -/
def _safe_float (value : PyValue) (default : ℚ) : ℚ :=
  if value = .pnone then default
  else if is_float_nan value then default
  else
    match float_builtin value with
    | .error _ => default
    | .ok .nan => default
    | .ok (.fin q) => q

/-! ## Python-style rounding and list helpers -/

/-- Round a rational to the nearest integer, ties to the even integer
(Python's `round` uses banker's rounding). -/
def roundHalfEven (x : ℚ) : ℤ :=
  let f : ℤ := Rat.floor x
  let frac : ℚ := x - (f : ℚ)
  if frac < 1 / 2 then f
  else if 1 / 2 < frac then f + 1
  else if f % 2 = 0 then f else f + 1

/-- Python's `round(x, nd)` on the exact-rational model of a float. -/
def pyRound (x : ℚ) (nd : ℕ) : ℚ :=
  ((roundHalfEven (x * 10 ^ nd) : ℤ) : ℚ) / 10 ^ nd

/-- `data[-n:]`: the trailing `n` elements of a list (the whole list when
`n ≥ length`, exactly as in Python). -/
def lastN (l : List ℚ) (n : ℕ) : List ℚ :=
  l.drop (l.length - n)

/-- Python's `max(l)` on a list of floats.  `max` of an empty list raises in
Python; every call site below guards the list to be non-empty, so the junk
value `0` for `[]` is never reached. -/
def pyMax : List ℚ → ℚ
  | [] => 0
  | x :: xs => xs.foldl max x

/-- Python's `min(l)`, same conventions as `pyMax`. -/
def pyMin : List ℚ → ℚ
  | [] => 0
  | x :: xs => xs.foldl min x

/-- `closes[-1] if closes else 0`. -/
def pyLastOr0 (l : List ℚ) : ℚ :=
  (l.getLast?).getD 0

/-- Python truthiness of an `Optional[float]`: `None` and `0.0` are falsy. -/
def truthy : Option ℚ → Bool
  | none => false
  | some q => q != 0

/-- The idiom `round(x, nd) if x else None` applied to an `Optional[float]`:
`None` stays `None`, an exact zero is suppressed to `None` by the truthiness
test, any other value is rounded. -/
def py_opt_round (v : Option ℚ) (nd : ℕ) : Option ℚ :=
  match v with
  | none => none
  | some q => if q = 0 then none else some (pyRound q nd)

/-! ## An exact square root, rounded to four decimals

`calculate_volatility` returns `variance ** 0.5`, an irrational number in
general.  The only uses of that value in the repository are (a) the truthiness
test `if calculate_volatility(...)`, which for `σ ≥ 0` is equivalent to a
zero test on the variance `σ²`, and (b) the reported field
`round(σ, 4)`, which is again rational.  To keep the embedding executable we
therefore carry the exact variance (`calculate_volatility_sq` below) and embed
the reported field through `sqrtRound4 σ²`, the exact real square root of the
variance rounded half-to-even to four decimals, computed purely on naturals:
for a non-negative rational `v = p/q` we have
`⌊10⁴·√v⌋ = ⌊√(10⁸·p·q)⌋ / q` and `10⁴·√v ≥ f + 1/2 ↔ 4·10⁸·p ≥ (2f+1)²·q`,
so floor and tie direction are integer computations. -/

/-- Newton iteration for the integer square root, with explicit fuel so that
the recursion is structural (kernel-reducible).  With `fuel ≥ 1` starting
from guess `n/2` this is exactly the classical convergent integer Newton
iteration. -/
def isqrtFuel : ℕ → ℕ → ℕ → ℕ
  | 0, _, guess => guess
  | fuel + 1, n, guess =>
    let next := (guess + n / guess) / 2
    if next < guess then isqrtFuel fuel n next else guess

/-- `⌊√n⌋` on naturals (Newton's method with enough fuel to converge). -/
def isqrt (n : ℕ) : ℕ :=
  if n ≤ 1 then n else isqrtFuel n n (n / 2)

/-- The exact real `√v` of a non-negative rational, rounded half-to-even to
four decimal digits; the exact-rational embedding of Python's
`round(v ** 0.5, 4)`. -/
def sqrtRound4 (v : ℚ) : ℚ :=
  let p := v.num.toNat
  let q := v.den
  let f := isqrt (100000000 * p * q) / q
  let lhs := 400000000 * p
  let rhs := (2 * f + 1) ^ 2 * q
  let r := if lhs < rhs then f
           else if rhs < lhs then f + 1
           else if f % 2 = 0 then f else f + 1
  (r : ℚ) / 10000

/-! ## The technical-indicator engine (`main.py` lines 338-414) -/

/-- `sma(data, period)` (`main.py` lines 356-359): `None` when the series is
shorter than the window, else the arithmetic mean of the trailing `period`
closes (`sum(data[-period:]) / period`). -/
def sma (data : List ℚ) (period : ℕ) : Option ℚ :=
  if data.length < period then none
  else some ((lastN data period).sum / (period : ℚ))

/-- `calculate_return(data, days)` (`main.py` lines 362-365): `None` when
fewer than `days + 1` bars exist; otherwise
`((data[-1] - data[-(days+1)]) / data[-(days+1)]) * 100`.  The source has no
zero test on the denominator: when `data[-(days+1)] == 0` the Python division
raises `ZeroDivisionError`, modelled by `Except.error ()`. -/
def calculate_return (data : List ℚ) (days : ℕ) : Except Unit (Option ℚ) :=
  if data.length < days + 1 then .ok none
  else
    let prev := data.getD (data.length - (days + 1)) 0
    let lastc := pyLastOr0 data
    if prev = 0 then .error ()
    else .ok (some ((lastc - prev) / prev * 100))

/-- `calculate_volatility(data, period)` (`main.py` lines 368-374), carried up
to the final square root: `None` when the series is shorter than the window,
else the population variance `σ²` of the trailing `period` closes.  The
source returns `σ = variance ** 0.5`; since `σ = 0 ↔ σ² = 0`, the truthiness
guard on `σ` is the zero test on this value, and the reported field
`round(σ, 4)` is `sqrtRound4` of this value. -/
def calculate_volatility_sq (data : List ℚ) (period : ℕ) : Option ℚ :=
  if data.length < period then none
  else
    let recent := lastN data period
    let mean := recent.sum / (recent.length : ℚ)
    some ((recent.map (fun x => (x - mean) ^ 2)).sum / (recent.length : ℚ))

/-- The trend rule ladder (`main.py` lines 382-392).  `trend` starts as
`"震荡"` (sideways); the ladder only runs under `if ma5 and ma10 and ma20`,
i.e. when all three averages are non-`None` and non-zero (Python truthiness),
and compares the chained conditions in source order:
`强势上涨` = strong-uptrend, `上涨趋势` = uptrend, `强势下跌` =
strong-downtrend, `下跌趋势` = downtrend. -/
def trend_of (current : ℚ) (ma5 ma10 ma20 : Option ℚ) : String :=
  if truthy ma5 && truthy ma10 && truthy ma20 then
    let m5 := ma5.getD 0
    let m10 := ma10.getD 0
    let m20 := ma20.getD 0
    if current > m5 ∧ m5 > m10 ∧ m10 > m20 then "强势上涨"
    else if current > m5 ∧ m5 > m10 then "上涨趋势"
    else if current < m5 ∧ m5 < m10 ∧ m10 < m20 then "强势下跌"
    else if current < m5 ∧ m5 < m10 then "下跌趋势"
    else "震荡"
  else "震荡"

/-- The result mapping built by `calculate_technical_indicators`
(`main.py` lines 394-414).  Optional fields hold Python `None` as `none`;
`high_20d`, `low_20d`, `trend` and `current_price` are always populated. -/
structure TechIndicators where
  ma5 : Option ℚ
  ma10 : Option ℚ
  ma20 : Option ℚ
  return_5d : Option ℚ
  return_10d : Option ℚ
  return_20d : Option ℚ
  volatility : Option ℚ
  high_20d : ℚ
  low_20d : ℚ
  trend : String
  current_price : ℚ
deriving DecidableEq, Repr

/-- One record of the history list consumed by
`calculate_technical_indicators` and produced by `get_lof_history`
(`main.py` lines 258-284): the keys `date`, `open`, `close`, `high`, `low`,
`volume`, `amount`, `change_rate`.  The `open` key is embedded as `open_`
(`open` is a Lean keyword). -/
structure FundHistRec where
  date : String
  open_ : ℚ
  close : ℚ
  high : ℚ
  low : ℚ
  volume : ℚ
  amount : ℚ
  change_rate : ℚ
deriving DecidableEq, Repr

/-- The body of the dict literal at `main.py` lines 394-414, after the three
`calculate_return` calls have been evaluated (they are the only raising
subexpressions).  Each optional entry goes through the
`round(x, nd) if x else None` truthiness idiom; the volatility entry applies
it to `σ = √σ²`; `high_20d`/`low_20d` fall back to the whole (shorter) series
when fewer than 20 bars exist. -/
def buildIndicators (closes : List ℚ) (r5 r10 r20 : Option ℚ) : TechIndicators :=
  let ma5 := sma closes 5
  let ma10 := sma closes 10
  let ma20 := sma closes 20
  let current_price := pyLastOr0 closes
  { ma5 := py_opt_round ma5 4
  , ma10 := py_opt_round ma10 4
  , ma20 := py_opt_round ma20 4
  , return_5d := py_opt_round r5 2
  , return_10d := py_opt_round r10 2
  , return_20d := py_opt_round r20 2
  , volatility :=
      match calculate_volatility_sq closes 20 with
      | none => none
      | some v2 => if v2 = 0 then none else some (sqrtRound4 v2)
  , high_20d := if 20 ≤ closes.length then pyMax (lastN closes 20) else pyMax closes
  , low_20d := if 20 ≤ closes.length then pyMin (lastN closes 20) else pyMin closes
  , trend := trend_of current_price ma5 ma10 ma20
  , current_price := current_price }

/-- `calculate_technical_indicators(history_data)` (`main.py` lines 338-414).
Returns the empty mapping `{}` (modelled `Except.ok none`) when the history
has fewer than 5 entries; otherwise extracts the `close` column and builds the
indicator mapping.  The three `calculate_return` calls may raise
(`ZeroDivisionError` on a zero denominator); no other subexpression raises, so
the function errors exactly when one of them does. -/
def calculate_technical_indicators (history_data : List FundHistRec) :
    Except Unit (Option TechIndicators) :=
  if history_data.length < 5 then .ok none
  else
    let closes := history_data.map FundHistRec.close
    match calculate_return closes 5, calculate_return closes 10,
        calculate_return closes 20 with
    | .ok r5, .ok r10, .ok r20 => .ok (some (buildIndicators closes r5 r10 r20))
    | _, _, _ => .error ()

/-- Build a history list with given closes (all other record fields zeroed);
used to exhibit concrete inputs. -/
def histOfCloses (l : List ℚ) : List FundHistRec :=
  l.map (fun c => ⟨"", 0, c, 0, 0, 0, 0, 0⟩)

/-! ## The resilient-fetch layer

`stock/analyzer.py` lines 86-132 (`_get_stock_data_with_retry`) and 134-165
(`_get_stock_data`), and `main.py` lines 113-144 (`_get_lof_data`).

The network is modelled by outcome functions: the caller supplies, for each
attempt index, what that fetch attempt would produce (a timeout, an
exception, or a data frame).  `await asyncio.sleep` and the log calls have no
data effect; fetch attempts and sleeps are recorded in an event trace so that
the retry policy itself (how many attempts, which provider, which delays) is
part of the observable behaviour.  Timestamps are integers (seconds). -/

/-- The outcome of one bounded network attempt: `asyncio.TimeoutError`, some
other exception (tagged by a code), or a successfully returned value. -/
inductive FetchOutcome (α : Type) where
  | timeout : FetchOutcome α
  | exc (code : ℕ) : FetchOutcome α
  | ok (df : α) : FetchOutcome α
deriving DecidableEq, Repr

/-- A Python exception value as raised by the fetch layer. -/
inductive PyErr where
  | timeoutError : PyErr
  | exception (code : ℕ) : PyErr
deriving DecidableEq, Repr

/-- The two data sources of `StockAnalyzer` (`eastmoney` primary, `sina`
secondary); the LOF list fetch of `main.py` also uses eastmoney. -/
inductive Provider where
  | eastmoney : Provider
  | sina : Provider
deriving DecidableEq, Repr

/-- Observable events of the fetch layer: a network attempt against a
provider (with its 0-based attempt index) or an `asyncio.sleep`. -/
inductive FetchEv where
  | attempt (p : Provider) (i : ℕ) : FetchEv
  | sleep (secs : ℕ) : FetchEv
deriving DecidableEq, Repr

/-- `MAX_RETRIES` (`stock/analyzer.py` line 21). -/
def MAX_RETRIES : ℕ := 3

/-- `RETRY_DELAY` seconds (`stock/analyzer.py` line 23). -/
def RETRY_DELAY : ℕ := 2

/-- `STOCK_CACHE_TTL` seconds (`stock/analyzer.py` line 19). -/
def STOCK_CACHE_TTL : ℤ := 600

/-- `CACHE_TTL` seconds (`main.py` line 20). -/
def CACHE_TTL : ℤ := 300

/-- The error recorded in `last_error` for a failed outcome. -/
def failErr {α : Type} : FetchOutcome α → Option PyErr
  | .timeout => some .timeoutError
  | .exc c => some (.exception c)
  | .ok _ => none

/-- Result of one provider's retry loop: the data frame if some attempt
succeeded, the `last_error` variable, and the event trace. -/
structure ProviderTry (α : Type) where
  result : Option α
  lastErr : Option PyErr
  trace : List FetchEv
deriving Repr

/-- One provider's `for attempt in range(MAX_RETRIES)` loop from
`_get_stock_data_with_retry` (`stock/analyzer.py` lines 91-109 for eastmoney,
113-129 for sina): return the frame on the first success; on a timeout or
exception record it in `last_error` and, when `attempt < MAX_RETRIES - 1`,
sleep `RETRY_DELAY` seconds before the next attempt.  `attempt` is the
absolute 0-based index, `remaining` the attempts left (`MAX_RETRIES` at the
top of the loop), `lastErr` the incoming `last_error`. -/
def try_provider {α : Type} (p : Provider) (fetch : ℕ → FetchOutcome α) :
    ℕ → ℕ → Option PyErr → ProviderTry α
  | _, 0, lastErr => ⟨none, lastErr, []⟩
  | attempt, remaining + 1, lastErr =>
    match fetch attempt with
    | .ok df => ⟨some df, lastErr, [.attempt p attempt]⟩
    | .timeout =>
      let rest := try_provider p fetch (attempt + 1) remaining (some .timeoutError)
      ⟨rest.result, rest.lastErr,
        .attempt p attempt ::
          (if attempt < MAX_RETRIES - 1 then [.sleep RETRY_DELAY] else []) ++ rest.trace⟩
    | .exc c =>
      let rest := try_provider p fetch (attempt + 1) remaining (some (.exception c))
      ⟨rest.result, rest.lastErr,
        .attempt p attempt ::
          (if attempt < MAX_RETRIES - 1 then [.sleep RETRY_DELAY] else []) ++ rest.trace⟩

/-- `_get_stock_data_with_retry` (`stock/analyzer.py` lines 86-132): run the
eastmoney loop; on success return its frame, otherwise run the sina loop with
`last_error` carried over; if that also fails, `raise last_error` (the
`or Exception(...)` default is unreachable since `MAX_RETRIES > 0`; it is
modelled by the `getD`). -/
def _get_stock_data_with_retry {α : Type} (fE fS : ℕ → FetchOutcome α) :
    Except PyErr α × List FetchEv :=
  let tE := try_provider .eastmoney fE 0 MAX_RETRIES none
  match tE.result with
  | some df => (.ok df, tE.trace)
  | none =>
    let tS := try_provider .sina fS 0 MAX_RETRIES tE.lastErr
    match tS.result with
    | some df => (.ok df, tE.trace ++ tS.trace)
    | none => (.error (tS.lastErr.getD (.exception 0)), tE.trace ++ tS.trace)

/-- The mutable cache pair (`_stock_cache`/`_stock_cache_time`, and likewise
`_lof_cache`/`_lof_cache_time`). -/
structure CacheState (α : Type) where
  cache : Option α
  cacheTime : Option ℤ
deriving DecidableEq, Repr

/-- The cache-miss branch of `_get_stock_data` (`stock/analyzer.py` lines
149-165): fetch with retry; on success store and return the frame; on failure
return the stale cached frame when one exists, else re-raise. -/
def _get_stock_data_refresh {α : Type} (st : CacheState α) (now : ℤ)
    (fE fS : ℕ → FetchOutcome α) : Except PyErr α × CacheState α × List FetchEv :=
  match _get_stock_data_with_retry fE fS with
  | (.ok df, tr) => (.ok df, ⟨some df, some now⟩, tr)
  | (.error e, tr) =>
    match st.cache with
    | some df => (.ok df, st, tr)
    | none => (.error e, st, tr)

/-- `_get_stock_data` (`stock/analyzer.py` lines 134-165): when both cache
fields are set and the cache is younger than `STOCK_CACHE_TTL`, serve it with
no network traffic; otherwise refresh. -/
def _get_stock_data {α : Type} (st : CacheState α) (now : ℤ)
    (fE fS : ℕ → FetchOutcome α) : Except PyErr α × CacheState α × List FetchEv :=
  match st.cache, st.cacheTime with
  | some df, some t =>
    if now - t < STOCK_CACHE_TTL then (.ok df, st, [])
    else _get_stock_data_refresh st now fE fS
  | _, _ => _get_stock_data_refresh st now fE fS

/-- The cache-miss branch of `_get_lof_data` (`main.py` lines 126-144): a
single time-boxed attempt at `fund_lof_spot_em`, no retry loop and no
secondary provider.  Only `asyncio.TimeoutError` is caught: on a timeout the
stale cache is served when present, else `TimeoutError` is raised; any other
exception propagates uncaught — even when a stale cache exists. -/
def _get_lof_data_refresh {α : Type} (st : CacheState α) (now : ℤ)
    (fetch : FetchOutcome α) : Except PyErr α × CacheState α × List FetchEv :=
  match fetch with
  | .ok df => (.ok df, ⟨some df, some now⟩, [.attempt .eastmoney 0])
  | .timeout =>
    match st.cache with
    | some df => (.ok df, st, [.attempt .eastmoney 0])
    | none => (.error .timeoutError, st, [.attempt .eastmoney 0])
  | .exc c => (.error (.exception c), st, [.attempt .eastmoney 0])

/-- `_get_lof_data` (`main.py` lines 113-144): serve the cache when younger
than `CACHE_TTL`, else perform the single fetch attempt. -/
def _get_lof_data {α : Type} (st : CacheState α) (now : ℤ)
    (fetch : FetchOutcome α) : Except PyErr α × CacheState α × List FetchEv :=
  match st.cache, st.cacheTime with
  | some df, some t =>
    if now - t < CACHE_TTL then (.ok df, st, [])
    else _get_lof_data_refresh st now fetch
  | _, _ => _get_lof_data_refresh st now fetch

/-! ## `get_lof_history` (`main.py` lines 211-293) -/

/-- One row of the data frame returned by `fund_lof_hist_em`, with each of the
eight columns possibly absent (`"列" in row.index` tests).  The date cell is a
string; the numeric cells are arbitrary Python values (NaN, strings, ...)
fed to `_safe_float`. -/
structure LofHistRow where
  c_date : Option String
  c_open : Option PyValue
  c_close : Option PyValue
  c_high : Option PyValue
  c_low : Option PyValue
  c_volume : Option PyValue
  c_amount : Option PyValue
  c_change : Option PyValue
deriving DecidableEq, Repr

/-- `df.tail(n)`: the trailing `n` rows. -/
def tailRows (l : List LofHistRow) (n : ℕ) : List LofHistRow :=
  l.drop (l.length - n)

/-- The record built for one row in the loop at `main.py` lines 258-284: each
column read with an `in row.index` guard defaulting to `0` (an int), every
numeric cell passed through `_safe_float` with default `0`, and the date cell
through `str(...)` with default `""`. -/
def rowToRec (r : LofHistRow) : FundHistRec :=
  { date := r.c_date.getD ""
  , open_ := _safe_float (r.c_open.getD (.pint 0)) 0
  , close := _safe_float (r.c_close.getD (.pint 0)) 0
  , high := _safe_float (r.c_high.getD (.pint 0)) 0
  , low := _safe_float (r.c_low.getD (.pint 0)) 0
  , volume := _safe_float (r.c_volume.getD (.pint 0)) 0
  , amount := _safe_float (r.c_amount.getD (.pint 0)) 0
  , change_rate := _safe_float (r.c_change.getD (.pint 0)) 0 }

/-- `get_lof_history(fund_code, days, adjust)` (`main.py` lines 211-293),
parametrised by the outcome of the (single, time-boxed) `fund_lof_hist_em`
call.  A timeout or an exception is caught and yields `None`; a `None` or
empty frame yields `None`; otherwise the trailing `days` rows are converted.
(The akshare call may itself return `None`, hence the `Option` inside
`FetchOutcome.ok`.)  On the modelled domain every branch returns, so the
function is total into `Option`. -/
def get_lof_history (outcome : FetchOutcome (Option (List LofHistRow)))
    (days : ℕ) : Option (List FundHistRec) :=
  match outcome with
  | .timeout => none
  | .exc _ => none
  | .ok none => none
  | .ok (some rows) =>
    if rows = [] then none
    else some ((tailRows rows days).map rowToRec)

/-- Decidable equality for `Except` results, so that concrete runs of the
embedded functions can be checked by `decide`. -/
instance {ε α : Type} [DecidableEq ε] [DecidableEq α] : DecidableEq (Except ε α) := fun x y =>
  match x, y with
  | .ok a, .ok b =>
    if h : a = b then isTrue (by rw [h])
    else isFalse (by intro hc; injection hc; contradiction)
  | .error e, .error f =>
    if h : e = f then isTrue (by rw [h])
    else isFalse (by intro hc; injection hc; contradiction)
  | .ok _, .error _ => isFalse (by intro hc; exact Except.noConfusion hc)
  | .error _, .ok _ => isFalse (by intro hc; exact Except.noConfusion hc)

/-! ## Sample inputs used by witnesses and counterexamples -/

/-- The indicator record computed for closes `[1,2,3,4,5]`. -/
def sampleInd5 : TechIndicators :=
  ⟨some 3, none, none, none, none, none, none, 5, 1, "震荡", 5⟩

/-- The indicator record computed for closes `[1,…,20]` (strictly rising). -/
def sampleInd20 : TechIndicators :=
  ⟨some 18, some (31 / 2), some (21 / 2), some (3333 / 100), some 100, none,
    some (57663 / 10000), 20, 1, "强势上涨", 20⟩

/-- The indicator record computed for thirty bars at a constant close of 1. -/
def sampleIndFlat30 : TechIndicators :=
  ⟨some 1, some 1, some 1, none, none, none, none, 1, 1, "震荡", 1⟩

/-- A history row with all eight columns present. -/
def sampleRow : LofHistRow :=
  ⟨some "2024-01-02", some (.pfloat (.fin 2)), some (.pfloat (.fin 3)),
    some (.pfloat (.fin 4)), some (.pfloat (.fin 1)), some (.pint 100),
    some (.pfloat (.fin 300)), some (.pstrNum "1.5" (.fin (3 / 2)))⟩

/-- `True` exactly on the failing fetch outcomes (timeout or exception). -/
def isFailure {α : Type} : FetchOutcome α → Bool
  | .ok _ => false
  | _ => true

/-! ## Shared lemmas -/

theorem map_close_histOfCloses (l : List ℚ) :
    (histOfCloses l).map FundHistRec.close = l := by
  induction l with
  | nil => rfl
  | cons x xs ih => simpa [histOfCloses] using ih

theorem length_histOfCloses (l : List ℚ) : (histOfCloses l).length = l.length := by
  simp [histOfCloses]

/-- Inversion for a successful, non-empty indicator computation: the history
has at least five bars, the three `calculate_return` calls all returned, and
the result is the dict built from them. -/
theorem calc_indicators_ok_some {history : List FundHistRec} {ind : TechIndicators}
    (h : calculate_technical_indicators history = .ok (some ind)) :
    5 ≤ history.length ∧
      ∃ r5 r10 r20,
        calculate_return (history.map FundHistRec.close) 5 = .ok r5 ∧
        calculate_return (history.map FundHistRec.close) 10 = .ok r10 ∧
        calculate_return (history.map FundHistRec.close) 20 = .ok r20 ∧
        ind = buildIndicators (history.map FundHistRec.close) r5 r10 r20 := by
  unfold calculate_technical_indicators at h
  split at h
  · simp at h
  · next hlen =>
    refine ⟨by omega, ?_⟩
    dsimp only at h
    split at h
    · next r5 r10 r20 h5 h10 h20 =>
      exact ⟨r5, r10, r20, h5, h10, h20, by injection h with h; injection h with h; exact h.symm⟩
    · simp at h

/-- `calculate_return` succeeds when the series is short or the denominator
close is non-zero. -/
theorem calculate_return_ok {data : List ℚ} {d : ℕ}
    (h : data.length < d + 1 ∨ data.getD (data.length - (d + 1)) 0 ≠ 0) :
    ∃ r, calculate_return data d = .ok r := by
  unfold calculate_return
  split
  · exact ⟨none, rfl⟩
  · next hlen =>
    rw [if_neg]
    · exact ⟨_, rfl⟩
    · rcases h with h | h
      · omega
      · exact h

/-- A short `calculate_return` reports absence. -/
theorem calculate_return_short {data : List ℚ} {d : ℕ} (h : data.length < d + 1) :
    calculate_return data d = .ok none := by
  unfold calculate_return
  rw [if_pos h]

theorem py_opt_round_none_iff (v : Option ℚ) (nd : ℕ) :
    py_opt_round v nd = none ↔ truthy v = false := by
  cases v with
  | none => simp [py_opt_round, truthy]
  | some q =>
    by_cases hq : q = 0 <;> simp [py_opt_round, truthy, hq]

/-! ## C9: histories shorter than five bars yield the empty mapping -/

/-- C9 (confirmed).  For every history list with fewer than 5 entries
(including the empty list), `calculate_technical_indicators` returns the
completely empty mapping `{}` (modelled as `Except.ok none`): no indicator
fields, no trend label, no current price. -/
theorem short_history_yields_empty_mapping (history : List FundHistRec)
    (h : history.length < 5) :
    calculate_technical_indicators history = .ok none := by
  unfold calculate_technical_indicators
  rw [if_pos h]

/-- Witness for C9: the empty history. -/
theorem short_history_yields_empty_mapping_witness :
    ([] : List FundHistRec).length < 5 ∧
      calculate_technical_indicators [] = .ok none :=
  ⟨by decide, short_history_yields_empty_mapping [] (by decide)⟩

/-! ## C8: the safe-float normalisation -/

/-- C8 (confirmed).  `_safe_float` is a total function on the modelled value
universe (it never raises: the only raising subexpression is `float(value)`
and its `ValueError`/`TypeError` are caught): `None`, NaN floats, values whose
conversion fails, and values converting to NaN all map to the configured
default, and every other value maps to its float conversion. -/
theorem safe_float_normalises (v : PyValue) (d : ℚ) :
    ((v = .pnone ∨ is_float_nan v = true ∨ (∃ e, float_builtin v = .error e) ∨
        float_builtin v = .ok .nan) → _safe_float v d = d) ∧
    (∀ q : ℚ, float_builtin v = .ok (.fin q) → _safe_float v d = q) := by
  constructor
  · rintro (rfl | hnan | ⟨e, herr⟩ | hnanr)
    · simp [_safe_float]
    · cases v with
      | pfloat f =>
        cases f with
        | nan => simp [_safe_float, is_float_nan]
        | fin q => simp [is_float_nan] at hnan
      | pnone => simp [_safe_float]
      | pint n => simp [is_float_nan] at hnan
      | pstrNum s f => simp [is_float_nan] at hnan
      | pstrBad s => simp [is_float_nan] at hnan
      | pother i => simp [is_float_nan] at hnan
    · cases v <;> simp_all [_safe_float, float_builtin, is_float_nan]
    · cases v with
      | pfloat f => cases f <;> simp_all [_safe_float, float_builtin, is_float_nan]
      | pstrNum s f => cases f <;> simp_all [_safe_float, float_builtin, is_float_nan]
      | _ => simp_all [float_builtin]
  · intro q hq
    cases v with
    | pfloat f => cases f <;> simp_all [_safe_float, float_builtin, is_float_nan]
    | pstrNum s f => cases f <;> simp_all [_safe_float, float_builtin, is_float_nan]
    | pint n => simp_all [_safe_float, float_builtin, is_float_nan]
    | _ => simp_all [float_builtin]

/-- Witness for C8: `None` maps to the default, a parsable string maps to its
parsed value. -/
theorem safe_float_normalises_witness :
    _safe_float .pnone 0 = 0 ∧ _safe_float (.pstrNum "2.5" (.fin (5 / 2))) 3 = 5 / 2 :=
  ⟨(safe_float_normalises .pnone 0).1 (Or.inl rfl),
    (safe_float_normalises (.pstrNum "2.5" (.fin (5 / 2))) 3).2 (5 / 2) rfl⟩

/-! ## C1: totality of `calculate_technical_indicators`

The claim asserts the function returns for *every* history list, the zero
denominator case being reported absent.  The source has no zero test:
`calculate_return` divides by `data[-(days+1)]` unguarded, so a zero close
`d+1` bars back with at least `d+1` bars raises `ZeroDivisionError`
(`main.py` line 365), which propagates out of
`calculate_technical_indicators`.  The claim is refuted by the
six-bar history with closes `[0, 1, 1, 1, 1, 1]` and amended to: the function
returns without raising exactly on histories whose relevant past closes are
non-zero. -/

/-- Counterexample to C1 as stated: on six bars whose close 6 bars back is
zero, `calculate_technical_indicators` raises (`Except.error`), instead of
reporting the 5-day return as absent. -/
theorem indicators_raise_on_zero_denominator_cex :
    calculate_technical_indicators (histOfCloses [0, 1, 1, 1, 1, 1]) = .error () := by
  decide

/-- C1 (amended).  `calculate_technical_indicators` returns without raising
on every history list such that, for each `d ∈ {5, 10, 20}` with at least
`d + 1` bars present, the close `d + 1` bars back is non-zero.  (When such a
close is zero the function instead raises `ZeroDivisionError`, as the
counterexample shows.) -/
theorem indicators_total_on_nonzero_denominators (history : List FundHistRec)
    (h5 : 6 ≤ history.length →
      (history.map FundHistRec.close).getD (history.length - 6) 0 ≠ 0)
    (h10 : 11 ≤ history.length →
      (history.map FundHistRec.close).getD (history.length - 11) 0 ≠ 0)
    (h20 : 21 ≤ history.length →
      (history.map FundHistRec.close).getD (history.length - 21) 0 ≠ 0) :
    ∃ r, calculate_technical_indicators history = .ok r := by
  unfold calculate_technical_indicators
  split
  · exact ⟨none, rfl⟩
  · next hlen =>
    have hmaplen : (history.map FundHistRec.close).length = history.length :=
      List.length_map _ _
    obtain ⟨r5, hr5⟩ : ∃ r, calculate_return (history.map FundHistRec.close) 5 = .ok r := by
      refine calculate_return_ok ?_
      rw [hmaplen]
      by_cases h : 6 ≤ history.length
      · exact Or.inr (h5 h)
      · exact Or.inl (by omega)
    obtain ⟨r10, hr10⟩ : ∃ r, calculate_return (history.map FundHistRec.close) 10 = .ok r := by
      refine calculate_return_ok ?_
      rw [hmaplen]
      by_cases h : 11 ≤ history.length
      · exact Or.inr (h10 h)
      · exact Or.inl (by omega)
    obtain ⟨r20, hr20⟩ : ∃ r, calculate_return (history.map FundHistRec.close) 20 = .ok r := by
      refine calculate_return_ok ?_
      rw [hmaplen]
      by_cases h : 21 ≤ history.length
      · exact Or.inr (h20 h)
      · exact Or.inl (by omega)
    dsimp only
    rw [hr5, hr10, hr20]
    exact ⟨_, rfl⟩

/-- Witness for the amended C1: twenty-one bars of constant close 1; all
three denominators exist and are non-zero, and the computation returns. -/
theorem indicators_total_on_nonzero_denominators_witness :
    ∃ r, calculate_technical_indicators (histOfCloses (List.replicate 21 1)) = .ok r :=
  indicators_total_on_nonzero_denominators (histOfCloses (List.replicate 21 1))
    (fun _ => by decide) (fun _ => by decide) (fun _ => by decide)

/-! ## C2: short series and absent fields

For the moving averages, returns and volatility the source indeed reports
absence on a short series.  But `high_20d`/`low_20d` are computed as
`max(closes[-20:]) if len(closes) >= 20 else max(closes)` (`main.py` lines
410-411): on a series of fewer than 20 bars they are **computed on the
shorter available window**, never absent.  The claim is refuted on the
five-bar series `[1,2,3,4,5]` and amended accordingly. -/

/-- Counterexample to C2 as stated: on five bars the 20-day high and low are
populated with the maximum/minimum of the short window (`5` and `1`), not
absent. -/
theorem short_series_high_low_computed_cex :
    calculate_technical_indicators (histOfCloses [1, 2, 3, 4, 5]) =
      .ok (some sampleInd5) := by
  decide

/-- C2 (amended).  On a successful, non-empty indicator computation over a
series shorter than an indicator's minimum window, the moving-average, return
and volatility fields are absent — never computed on the short window — while
the 20-day high and 20-day low instead fall back to the maximum/minimum of
the whole (shorter) series. -/
theorem short_series_fields_absent {history : List FundHistRec} {ind : TechIndicators}
    (h : calculate_technical_indicators history = .ok (some ind)) :
    (history.length < 10 → ind.ma10 = none) ∧
    (history.length < 20 → ind.ma20 = none) ∧
    (history.length < 6 → ind.return_5d = none) ∧
    (history.length < 11 → ind.return_10d = none) ∧
    (history.length < 21 → ind.return_20d = none) ∧
    (history.length < 20 → ind.volatility = none) ∧
    (history.length < 20 →
      ind.high_20d = pyMax (history.map FundHistRec.close) ∧
      ind.low_20d = pyMin (history.map FundHistRec.close)) := by
  obtain ⟨h5, r5, r10, r20, e5, e10, e20, rfl⟩ := calc_indicators_ok_some h
  have hmaplen : (history.map FundHistRec.close).length = history.length :=
    List.length_map _ _
  refine ⟨?_, ?_, ?_, ?_, ?_, ?_, ?_⟩ <;> intro hlt
  · simp [buildIndicators, py_opt_round, sma, hmaplen, hlt]
  · simp [buildIndicators, py_opt_round, sma, hmaplen, hlt]
  · have : r5 = none := by
      have := @calculate_return_short (history.map FundHistRec.close) 5
        (by rw [List.length_map]; omega)
      rw [e5] at this
      injection this
    simp [buildIndicators, py_opt_round, this]
  · have : r10 = none := by
      have := @calculate_return_short (history.map FundHistRec.close) 10
        (by rw [List.length_map]; omega)
      rw [e10] at this
      injection this
    simp [buildIndicators, py_opt_round, this]
  · have : r20 = none := by
      have := @calculate_return_short (history.map FundHistRec.close) 20
        (by rw [List.length_map]; omega)
      rw [e20] at this
      injection this
    simp [buildIndicators, py_opt_round, this]
  · simp [buildIndicators, calculate_volatility_sq, hmaplen, hlt]
  · constructor
    · simp [buildIndicators, hmaplen]
      omega
    · simp [buildIndicators, hmaplen]
      omega

/-- Witness for the amended C2, at the five-bar series `[1,2,3,4,5]`: the
10- and 20-bar indicators are absent while the 20-day high is the maximum of
the short window. -/
theorem short_series_fields_absent_witness :
    calculate_technical_indicators (histOfCloses [1, 2, 3, 4, 5]) = .ok (some sampleInd5) ∧
    sampleInd5.ma10 = none ∧ sampleInd5.volatility = none ∧
    sampleInd5.high_20d = pyMax ((histOfCloses [1, 2, 3, 4, 5]).map FundHistRec.close) := by
  have h : calculate_technical_indicators (histOfCloses [1, 2, 3, 4, 5]) =
      .ok (some sampleInd5) := by decide
  have hc := short_series_fields_absent h
  exact ⟨h, hc.1 (by decide), hc.2.2.2.2.2.1 (by decide), (hc.2.2.2.2.2.2 (by decide)).1⟩

/-! ## C5: the moving-average fields

The source computes `sma` correctly and rounds it, but the populated entry is
`round(ma_w, 4) if ma_w else None` (`main.py` lines 395-397): an exact-zero
mean is *suppressed* by the Python truthiness test, so the field can be
absent on a series with enough bars.  Refuted on the all-zero five-bar
series; amended with the zero-mean exception. -/

/-- Counterexample to C5 as stated: five bars with close `0` have ≥ 5 bars,
so the claim asserts `ma5` is present (the rounded mean, `0`); the code
returns `None` for it (the whole record shows every optional field
suppressed). -/
theorem zero_mean_ma_absent_cex :
    calculate_technical_indicators (histOfCloses [0, 0, 0, 0, 0]) =
      .ok (some ⟨none, none, none, none, none, none, none, 0, 0, "震荡", 0⟩) := by
  decide

/-- C5 (amended).  On a successful, non-empty indicator computation, for each
window `w ∈ {5, 10, 20}`: with fewer than `w` bars the `ma_w` field is
absent; with at least `w` bars it equals the arithmetic mean of the last `w`
closes rounded to 4 decimal places — unless that mean is exactly zero, in
which case the truthiness idiom suppresses it to absent. -/
theorem ma_fields_are_rounded_means {history : List FundHistRec} {ind : TechIndicators}
    (h : calculate_technical_indicators history = .ok (some ind)) :
    (history.length < 5 → ind.ma5 = none) ∧
    (5 ≤ history.length →
      ind.ma5 = if (lastN (history.map FundHistRec.close) 5).sum / 5 = 0 then none
        else some (pyRound ((lastN (history.map FundHistRec.close) 5).sum / 5) 4)) ∧
    (history.length < 10 → ind.ma10 = none) ∧
    (10 ≤ history.length →
      ind.ma10 = if (lastN (history.map FundHistRec.close) 10).sum / 10 = 0 then none
        else some (pyRound ((lastN (history.map FundHistRec.close) 10).sum / 10) 4)) ∧
    (history.length < 20 → ind.ma20 = none) ∧
    (20 ≤ history.length →
      ind.ma20 = if (lastN (history.map FundHistRec.close) 20).sum / 20 = 0 then none
        else some (pyRound ((lastN (history.map FundHistRec.close) 20).sum / 20) 4)) := by
  obtain ⟨h5, r5, r10, r20, e5, e10, e20, rfl⟩ := calc_indicators_ok_some h
  have hmaplen : (history.map FundHistRec.close).length = history.length :=
    List.length_map _ _
  refine ⟨?_, ?_, ?_, ?_, ?_, ?_⟩ <;> intro hw
  · omega
  · simp only [buildIndicators, sma, py_opt_round, hmaplen, Nat.cast_ofNat,
      if_neg (by omega : ¬history.length < 5)]
  · simp [buildIndicators, sma, py_opt_round, hmaplen, hw]
  · simp only [buildIndicators, sma, py_opt_round, hmaplen, Nat.cast_ofNat,
      if_neg (by omega : ¬history.length < 10)]
  · simp [buildIndicators, sma, py_opt_round, hmaplen, hw]
  · simp only [buildIndicators, sma, py_opt_round, hmaplen, Nat.cast_ofNat,
      if_neg (by omega : ¬history.length < 20)]

/-- Witness for the amended C5 at `[1,2,3,4,5]`: `ma5` is the rounded mean
`3`, `ma10` is absent. -/
theorem ma_fields_are_rounded_means_witness :
    calculate_technical_indicators (histOfCloses [1, 2, 3, 4, 5]) = .ok (some sampleInd5) ∧
    sampleInd5.ma5 = some 3 ∧ sampleInd5.ma10 = none := by
  have h : calculate_technical_indicators (histOfCloses [1, 2, 3, 4, 5]) =
      .ok (some sampleInd5) := by decide
  have hc := ma_fields_are_rounded_means h
  refine ⟨h, ?_, hc.2.2.1 (by decide)⟩
  rw [hc.2.1 (by decide)]
  decide

/-! ## C3: the trend rule ladder -/

/-- Evaluation of the trend ladder when all three averages are present and
non-zero (the truthiness guard passes): the four rungs in source order. -/
theorem trend_of_eval (c m5 m10 m20 : ℚ) (h5 : m5 ≠ 0) (h10 : m10 ≠ 0) (h20 : m20 ≠ 0) :
    trend_of c (some m5) (some m10) (some m20) =
      if c > m5 ∧ m5 > m10 ∧ m10 > m20 then "强势上涨"
      else if c > m5 ∧ m5 > m10 then "上涨趋势"
      else if c < m5 ∧ m5 < m10 ∧ m10 < m20 then "强势下跌"
      else if c < m5 ∧ m5 < m10 then "下跌趋势"
      else "震荡" := by
  unfold trend_of
  rw [if_pos (by simp [truthy, h5, h10, h20])]
  rfl

/-- C3 (confirmed).  On a successful, non-empty indicator computation whose
three moving-average fields are all present, writing `m5, m10, m20` for the
(unrounded) averages the trend ladder compares: a strict chain
`close > m5 > m10 > m20` labels strong-uptrend, the symmetric strict chain
labels strong-downtrend, and `close > m5 > m10` with `close < m20` (so that
the first rung cannot fire) labels uptrend; and whenever any of the three
average fields is absent the label is sideways (`震荡`). -/
theorem trend_ladder_precedence {history : List FundHistRec} {ind : TechIndicators}
    (h : calculate_technical_indicators history = .ok (some ind)) :
    (∀ m5 m10 m20 : ℚ,
      ind.ma5 ≠ none → ind.ma10 ≠ none → ind.ma20 ≠ none →
      sma (history.map FundHistRec.close) 5 = some m5 →
      sma (history.map FundHistRec.close) 10 = some m10 →
      sma (history.map FundHistRec.close) 20 = some m20 →
      ((pyLastOr0 (history.map FundHistRec.close) > m5 ∧ m5 > m10 ∧ m10 > m20) →
        ind.trend = "强势上涨") ∧
      ((pyLastOr0 (history.map FundHistRec.close) < m5 ∧ m5 < m10 ∧ m10 < m20) →
        ind.trend = "强势下跌") ∧
      ((pyLastOr0 (history.map FundHistRec.close) > m5 ∧ m5 > m10 ∧
          pyLastOr0 (history.map FundHistRec.close) < m20) →
        ind.trend = "上涨趋势")) ∧
    ((ind.ma5 = none ∨ ind.ma10 = none ∨ ind.ma20 = none) → ind.trend = "震荡") := by
  obtain ⟨hlen, r5, r10, r20, e5, e10, e20, rfl⟩ := calc_indicators_ok_some h
  constructor
  · intro m5 m10 m20 hp5 hp10 hp20 hs5 hs10 hs20
    simp only [buildIndicators, py_opt_round, hs5, hs10, hs20] at hp5 hp10 hp20 ⊢
    have hm5 : m5 ≠ 0 := by
      intro hz; rw [hz] at hp5; simp at hp5
    have hm10 : m10 ≠ 0 := by
      intro hz; rw [hz] at hp10; simp at hp10
    have hm20 : m20 ≠ 0 := by
      intro hz; rw [hz] at hp20; simp at hp20
    rw [trend_of_eval _ _ _ _ hm5 hm10 hm20]
    refine ⟨?_, ?_, ?_⟩
    · intro hc
      rw [if_pos hc]
    · intro hc
      rw [if_neg (by rintro ⟨a, -⟩; exact absurd hc.1 (not_lt.mpr (le_of_lt a))),
        if_neg (by rintro ⟨a, -⟩; exact absurd hc.1 (not_lt.mpr (le_of_lt a))),
        if_pos hc]
    · intro hc
      rw [if_neg (by
          rintro ⟨-, -, hgt⟩
          exact absurd (lt_trans (lt_trans hgt hc.2.1) hc.1) (not_lt.mpr (le_of_lt hc.2.2))),
        if_pos ⟨hc.1, hc.2.1⟩]
  · intro habs
    simp only [buildIndicators] at habs ⊢
    have : truthy (sma (history.map FundHistRec.close) 5) = false ∨
        truthy (sma (history.map FundHistRec.close) 10) = false ∨
        truthy (sma (history.map FundHistRec.close) 20) = false := by
      rcases habs with habs | habs | habs
      · exact Or.inl ((py_opt_round_none_iff _ _).mp habs)
      · exact Or.inr (Or.inl ((py_opt_round_none_iff _ _).mp habs))
      · exact Or.inr (Or.inr ((py_opt_round_none_iff _ _).mp habs))
    unfold trend_of
    rcases this with hf | hf | hf <;> rw [hf] <;> simp

set_option maxRecDepth 8000 in
/-- Witness for C3: the strictly rising 20-bar series with closes `1…20`;
all three averages are present and `20 > 18 > 15.5 > 10.5`, so the label is
strong-uptrend. -/
theorem trend_ladder_precedence_witness :
    calculate_technical_indicators
        (histOfCloses [1, 2, 3, 4, 5, 6, 7, 8, 9, 10, 11, 12, 13, 14, 15, 16, 17, 18, 19, 20]) =
      .ok (some sampleInd20) ∧
    sampleInd20.trend = "强势上涨" := by
  have h : calculate_technical_indicators
      (histOfCloses [1, 2, 3, 4, 5, 6, 7, 8, 9, 10, 11, 12, 13, 14, 15, 16, 17, 18, 19, 20]) =
      .ok (some sampleInd20) := by decide
  refine ⟨h, ?_⟩
  exact ((trend_ladder_precedence h).1 18 (31 / 2) (21 / 2)
      (by decide) (by decide) (by decide) (by decide) (by decide) (by decide)).1
    ⟨by decide, by decide, by decide⟩

/-! ## C4: volatility of a flat series

On a constant-price 30-bar series the population standard deviation is `0` —
but the populated entry is `round(vol, 4) if vol else None` (`main.py` lines
407-409), and `0.0` is falsy, so the field is reported *absent*, not `0`.
Refuted at constant close `1`; amended to assert the absence (for any
non-zero constant close; with a zero constant close the function raises, see
C1). -/

theorem drop_replicate (i n : ℕ) (c : ℚ) :
    (List.replicate n c).drop i = List.replicate (n - i) c := by
  induction i generalizing n with
  | zero => simp
  | succ i ih =>
    cases n with
    | zero => simp
    | succ n => simp [List.replicate_succ, ih]

theorem lastN_replicate (n p : ℕ) (c : ℚ) (h : p ≤ n) :
    lastN (List.replicate n c) p = List.replicate p c := by
  rw [lastN, List.length_replicate, drop_replicate]
  congr 1
  omega

theorem sum_replicate_rat (p : ℕ) (c : ℚ) : (List.replicate p c).sum = p * c := by
  rw [List.sum_replicate, nsmul_eq_mul]

theorem sma_replicate (n p : ℕ) (c : ℚ) (hp : 0 < p) (h : p ≤ n) :
    sma (List.replicate n c) p = some c := by
  rw [sma, if_neg (by simp; omega)]
  rw [lastN_replicate n p c h, sum_replicate_rat]
  congr 1
  rw [mul_div_cancel_left₀]
  exact Nat.cast_ne_zero.mpr (by omega)

theorem volatility_sq_replicate (n p : ℕ) (c : ℚ) (hp : 0 < p) (h : p ≤ n) :
    calculate_volatility_sq (List.replicate n c) p = some 0 := by
  rw [calculate_volatility_sq, if_neg (by simp; omega)]
  rw [lastN_replicate n p c h]
  have hm : (List.replicate p c).sum / ((List.replicate p c).length : ℚ) = c := by
    rw [sum_replicate_rat, List.length_replicate, mul_div_cancel_left₀]
    exact Nat.cast_ne_zero.mpr (by omega)
  dsimp only
  rw [hm]
  simp [sum_replicate_rat]

theorem calculate_return_replicate (n d : ℕ) (c : ℚ) (hc : c ≠ 0) (h : d + 1 ≤ n) :
    calculate_return (List.replicate n c) d = .ok (some 0) := by
  rw [calculate_return]
  rw [if_neg (by simp; omega)]
  have hprev : (List.replicate n c).getD ((List.replicate n c).length - (d + 1)) 0 = c := by
    rw [List.getD_eq_getElem?_getD, List.getElem?_replicate,
      if_pos (by simp; omega), Option.getD_some]
  have hlast : pyLastOr0 (List.replicate n c) = c := by
    rw [pyLastOr0, List.getLast?_replicate, if_neg (by omega), Option.getD_some]
  simp only [hprev, hlast, if_neg hc]
  norm_num

set_option maxRecDepth 8000 in
/-- Counterexample to C4 as stated: thirty bars at constant close `1`; the
volatility field of the result is `None`, not `0`. -/
theorem flat_series_volatility_cex :
    calculate_technical_indicators (histOfCloses (List.replicate 30 1)) =
      .ok (some sampleIndFlat30) := by
  decide

/-- C4 (corrected form).  For every constant-price 30-bar series with
non-zero price, the indicator computation succeeds and its volatility field
is absent (`None`): the zero standard deviation is suppressed by the
truthiness guard rather than reported as `0`. -/
theorem flat_series_volatility_absent (c : ℚ) (hc : c ≠ 0) :
    ∃ ind, calculate_technical_indicators (histOfCloses (List.replicate 30 c)) =
      .ok (some ind) ∧ ind.volatility = none := by
  have hmap : (histOfCloses (List.replicate 30 c)).map FundHistRec.close =
      List.replicate 30 c := map_close_histOfCloses _
  refine ⟨buildIndicators (List.replicate 30 c) (some 0) (some 0) (some 0), ?_, ?_⟩
  · rw [calculate_technical_indicators,
      if_neg (by rw [length_histOfCloses, List.length_replicate]; omega)]
    dsimp only
    rw [hmap, calculate_return_replicate 30 5 c hc (by omega),
      calculate_return_replicate 30 10 c hc (by omega),
      calculate_return_replicate 30 20 c hc (by omega)]
  · rw [buildIndicators]
    dsimp only
    rw [volatility_sq_replicate 30 20 c (by omega) (by omega)]
    simp

/-- Witness for the corrected C4 at constant close `1`. -/
theorem flat_series_volatility_absent_witness :
    (1 : ℚ) ≠ 0 ∧
      ∃ ind, calculate_technical_indicators (histOfCloses (List.replicate 30 1)) =
        .ok (some ind) ∧ ind.volatility = none :=
  ⟨one_ne_zero, flat_series_volatility_absent 1 one_ne_zero⟩

/-! ## Lemmas about the retry loop -/

/-- A successful attempt ends the loop immediately. -/
theorem try_provider_ok_step {α : Type} (p : Provider) (f : ℕ → FetchOutcome α)
    (a r : ℕ) (e : Option PyErr) {df : α} (h : f a = .ok df) :
    try_provider p f a (r + 1) e = ⟨some df, e, [.attempt p a]⟩ := by
  rw [try_provider, h]

/-- A failing attempt records its error in `last_error`, sleeps when it is
not the final attempt, and continues the loop. -/
theorem try_provider_fail_step {α : Type} (p : Provider) (f : ℕ → FetchOutcome α)
    (a r : ℕ) (e : Option PyErr) (h : isFailure (f a) = true) :
    try_provider p f a (r + 1) e =
      ⟨(try_provider p f (a + 1) r (failErr (f a))).result,
        (try_provider p f (a + 1) r (failErr (f a))).lastErr,
        .attempt p a ::
          (if a < MAX_RETRIES - 1 then [.sleep RETRY_DELAY] else []) ++
            (try_provider p f (a + 1) r (failErr (f a))).trace⟩ := by
  cases hf : f a with
  | ok df => rw [hf] at h; simp [isFailure] at h
  | timeout => rw [try_provider, hf]; rfl
  | exc c => rw [try_provider, hf]; rfl

/-- If the loop ended with no frame, no attempt in its range succeeded. -/
theorem try_provider_result_none {α : Type} (p : Provider) (f : ℕ → FetchOutcome α) :
    ∀ (r a : ℕ) (e : Option PyErr), (try_provider p f a r e).result = none →
      ∀ i, a ≤ i → i < a + r → ∀ df, f i ≠ .ok df := by
  intro r
  induction r with
  | zero => intro a e _ i h1 h2 df; omega
  | succ r ih =>
    intro a e hres i h1 h2 df
    cases hf : f a with
    | ok d =>
      rw [try_provider_ok_step p f a r e hf] at hres
      simp at hres
    | timeout =>
      rw [try_provider_fail_step p f a r e (by rw [hf]; rfl)] at hres
      rcases Nat.eq_or_lt_of_le h1 with rfl | hgt
      · rw [hf]; intro hc; exact FetchOutcome.noConfusion hc
      · exact ih (a + 1) (failErr (f a)) hres i hgt (by omega) df
    | exc c =>
      rw [try_provider_fail_step p f a r e (by rw [hf]; rfl)] at hres
      rcases Nat.eq_or_lt_of_le h1 with rfl | hgt
      · rw [hf]; intro hc; exact FetchOutcome.noConfusion hc
      · exact ih (a + 1) (failErr (f a)) hres i hgt (by omega) df

/-- Every failing outcome produces an error value. -/
theorem isFailure_failErr {α : Type} {o : FetchOutcome α} (h : isFailure o = true) :
    ∃ e, failErr o = some e := by
  cases o with
  | ok df => simp [isFailure] at h
  | timeout => exact ⟨.timeoutError, rfl⟩
  | exc c => exact ⟨.exception c, rfl⟩

/-- The full three-attempt loop under three failures: no frame, the last
error is that of the final attempt, and the trace is attempt 0, a 2-second
sleep, attempt 1, a 2-second sleep, attempt 2 (no sleep after the last). -/
theorem try_provider3_allfail {α : Type} (p : Provider) (f : ℕ → FetchOutcome α)
    (e : Option PyErr) (h0 : isFailure (f 0) = true) (h1 : isFailure (f 1) = true)
    (h2 : isFailure (f 2) = true) :
    try_provider p f 0 MAX_RETRIES e =
      ⟨none, failErr (f 2),
        [.attempt p 0, .sleep RETRY_DELAY, .attempt p 1, .sleep RETRY_DELAY,
          .attempt p 2]⟩ := by
  show try_provider p f 0 (2 + 1) e = _
  rw [try_provider_fail_step p f 0 2 e h0]
  show (⟨(try_provider p f 1 (1 + 1) (failErr (f 0))).result, _, _⟩ : ProviderTry α) = _
  rw [try_provider_fail_step p f 1 1 (failErr (f 0)) h1]
  rw [try_provider_fail_step p f 2 0 (failErr (f 1)) h2]
  rw [show try_provider p f 3 0 (failErr (f 2)) = ⟨none, failErr (f 2), []⟩ from rfl]
  simp [MAX_RETRIES, RETRY_DELAY]

/-- All six attempts failing makes `_get_stock_data_with_retry` raise the
final error, with the full ten-event trace. -/
theorem with_retry_allfail {α : Type} (fE fS : ℕ → FetchOutcome α)
    (hE : ∀ i, i < MAX_RETRIES → isFailure (fE i) = true)
    (hS : ∀ i, i < MAX_RETRIES → isFailure (fS i) = true) :
    ∃ e, _get_stock_data_with_retry fE fS =
      (.error e,
        [.attempt .eastmoney 0, .sleep RETRY_DELAY, .attempt .eastmoney 1,
          .sleep RETRY_DELAY, .attempt .eastmoney 2, .attempt .sina 0,
          .sleep RETRY_DELAY, .attempt .sina 1, .sleep RETRY_DELAY,
          .attempt .sina 2]) ∧ failErr (fS 2) = some e := by
  obtain ⟨e, he⟩ := isFailure_failErr (hS 2 (by decide))
  refine ⟨e, ?_, he⟩
  rw [_get_stock_data_with_retry,
    try_provider3_allfail .eastmoney fE none (hE 0 (by decide)) (hE 1 (by decide))
      (hE 2 (by decide)),
    try_provider3_allfail .sina fS (failErr (fE 2)) (hS 0 (by decide)) (hS 1 (by decide))
      (hS 2 (by decide))]
  rw [he]
  rfl

/-- Total failure in the cache-miss branch of `_get_stock_data`: the stale
cache is served when present, otherwise the last error propagates. -/
theorem get_stock_refresh_allfail {α : Type} (st : CacheState α) (now : ℤ)
    (fE fS : ℕ → FetchOutcome α)
    (hE : ∀ i, i < MAX_RETRIES → isFailure (fE i) = true)
    (hS : ∀ i, i < MAX_RETRIES → isFailure (fS i) = true) :
    (∀ df, st.cache = some df → (_get_stock_data_refresh st now fE fS).1 = .ok df) ∧
    (st.cache = none → ∃ e, (_get_stock_data_refresh st now fE fS).1 = .error e) := by
  obtain ⟨e, hwr, he⟩ := with_retry_allfail fE fS hE hS
  constructor
  · intro df hdf
    rw [_get_stock_data_refresh, hwr]
    simp [hdf]
  · intro hnone
    refine ⟨e, ?_⟩
    rw [_get_stock_data_refresh, hwr]
    simp [hnone]

/-! ## C6: stale-cache fallback under total fetch failure

For the A-share snapshot (`_get_stock_data`) the claim holds exactly.  But
the LOF snapshot (`_get_lof_data`, `main.py` lines 126-144, the second code
location the claim covers) catches **only** `asyncio.TimeoutError`: a
non-timeout provider failure propagates even when a stale cached snapshot
exists.  Refuted there; amended to: the stock path behaves as claimed for
every failure mode, the LOF path only for timeouts. -/

/-- Counterexample to C6 as stated: an expired LOF cache holding frame `7`
exists (cached at time 0, requested at time 1000 > TTL 300), the single fetch
raises a non-timeout exception, and `_get_lof_data` propagates the error
instead of serving the stale frame. -/
theorem lof_exception_ignores_stale_cache_cex :
    _get_lof_data (⟨some 7, some 0⟩ : CacheState ℕ) 1000 (.exc 1) =
      (.error (.exception 1), ⟨some 7, some 0⟩, [.attempt .eastmoney 0]) := by
  decide

/-- C6 (amended).  When the cache is not fresh and every fetch attempt on
both providers fails, `_get_stock_data` returns the stale cached snapshot if
one exists and propagates an error if none does; `_get_lof_data` does the
same for a timeout failure, but propagates a non-timeout failure even when a
stale snapshot exists. -/
theorem stale_cache_fallback_on_total_failure :
    (∀ (α : Type) (st : CacheState α) (now : ℤ) (fE fS : ℕ → FetchOutcome α),
      (∀ df t, st.cache = some df → st.cacheTime = some t → STOCK_CACHE_TTL ≤ now - t) →
      (∀ i, i < MAX_RETRIES → isFailure (fE i) = true) →
      (∀ i, i < MAX_RETRIES → isFailure (fS i) = true) →
      (∀ df, st.cache = some df → (_get_stock_data st now fE fS).1 = .ok df) ∧
      (st.cache = none → ∃ e, (_get_stock_data st now fE fS).1 = .error e)) ∧
    (∀ (α : Type) (st : CacheState α) (now : ℤ),
      (∀ df t, st.cache = some df → st.cacheTime = some t → CACHE_TTL ≤ now - t) →
      (∀ df, st.cache = some df → (_get_lof_data st now .timeout).1 = .ok df) ∧
      (st.cache = none →
        (_get_lof_data st now (.timeout : FetchOutcome α)).1 = .error .timeoutError) ∧
      (∀ c df, st.cache = some df →
        (_get_lof_data st now (.exc c)).1 = .error (.exception c))) := by
  constructor
  · intro α st now fE fS hstale hE hS
    obtain ⟨cache, cacheTime⟩ := st
    obtain ⟨hok, herr⟩ := get_stock_refresh_allfail ⟨cache, cacheTime⟩ now fE fS hE hS
    constructor
    · intro df hdf
      simp only at hdf
      subst hdf
      cases cacheTime with
      | none => exact hok df rfl
      | some t =>
        have hst := not_lt.mpr (hstale df t rfl rfl)
        show (if now - t < STOCK_CACHE_TTL then
            ((Except.ok df : Except PyErr α), (⟨some df, some t⟩ : CacheState α),
              ([] : List FetchEv))
          else _get_stock_data_refresh ⟨some df, some t⟩ now fE fS).1 = Except.ok df
        rw [if_neg hst]
        exact hok df rfl
    · intro hnone
      simp only at hnone
      subst hnone
      obtain ⟨e, he⟩ := herr rfl
      cases cacheTime with
      | none => exact ⟨e, he⟩
      | some t => exact ⟨e, he⟩
  · intro α st now hstale
    obtain ⟨cache, cacheTime⟩ := st
    refine ⟨?_, ?_, ?_⟩
    · intro df hdf
      simp only at hdf
      subst hdf
      cases cacheTime with
      | none => rfl
      | some t =>
        have hst := not_lt.mpr (hstale df t rfl rfl)
        show (if now - t < CACHE_TTL then
            ((Except.ok df : Except PyErr α), (⟨some df, some t⟩ : CacheState α),
              ([] : List FetchEv))
          else _get_lof_data_refresh ⟨some df, some t⟩ now .timeout).1 = Except.ok df
        rw [if_neg hst]
        rfl
    · intro hnone
      simp only at hnone
      subst hnone
      cases cacheTime with
      | none => rfl
      | some t => rfl
    · intro c df hdf
      simp only at hdf
      subst hdf
      cases cacheTime with
      | none => rfl
      | some t =>
        have hst := not_lt.mpr (hstale df t rfl rfl)
        show (if now - t < CACHE_TTL then
            ((Except.ok df : Except PyErr α), (⟨some df, some t⟩ : CacheState α),
              ([] : List FetchEv))
          else _get_lof_data_refresh ⟨some df, some t⟩ now (.exc c)).1 =
          Except.error (.exception c)
        rw [if_neg hst]
        rfl

/-- Witness for the amended C6: snapshot `7` cached at time 0, requested at
time 1000 (past both TTLs); every stock attempt times out on eastmoney and
raises on sina, yet the stale `7` is served. -/
theorem stale_cache_fallback_on_total_failure_witness :
    (_get_stock_data (⟨some 7, some 0⟩ : CacheState ℕ) 1000
        (fun _ => .timeout) (fun _ => .exc 5)).1 = .ok 7 ∧
    (_get_lof_data (⟨some 7, some 0⟩ : CacheState ℕ) 1000 .timeout).1 = .ok 7 := by
  constructor
  · exact (stale_cache_fallback_on_total_failure.1 ℕ ⟨some 7, some 0⟩ 1000
      (fun _ => .timeout) (fun _ => .exc 5)
      (by intro df t h1 h2; injection h2 with h2; rw [← h2]; decide)
      (fun _ _ => rfl) (fun _ _ => rfl)).1 7 rfl
  · exact (stale_cache_fallback_on_total_failure.2 ℕ ⟨some 7, some 0⟩ 1000
      (by intro df t h1 h2; injection h2 with h2; rw [← h2]; decide)).1 7 rfl

/-! ## C7: the retry policy

`_get_stock_data_with_retry` implements exactly the claimed policy: 3
attempts on eastmoney with a 2-second sleep between attempts, then 3 attempts
on sina likewise, an error surfacing only after all six failed.  But the
claim also covers `_get_lof_data` (`main.py` lines 126-144), which performs a
**single** attempt: no retry, no second provider.  Refuted there; amended to
restrict the retry policy to the stock snapshot path. -/

/-- Counterexample to C7 as stated: a cache-less LOF request whose single
fetch attempt times out; the error surfaces after exactly one attempt (the
trace holds one fetch event and no sleeps) instead of being retried three
times and handed to a secondary provider. -/
theorem lof_fetch_not_retried_cex :
    _get_lof_data (⟨none, none⟩ : CacheState ℕ) 0 .timeout =
      (.error .timeoutError, ⟨none, none⟩, [.attempt .eastmoney 0]) := by
  decide

/-- C7 (amended).  (i) A fresh cache is served with no network events.
(ii) On the stock path, when all six attempts fail the observable behaviour
is: eastmoney attempts 0, 1, 2 with a `RETRY_DELAY`-second sleep between
consecutive attempts, then sina attempts 0, 1, 2 likewise, and the final
attempt's error is raised.  (iii) An error is surfaced only if no attempt on
either provider succeeded.  (iv) The LOF path issues exactly one fetch
attempt whenever its cache is not fresh — no retry, no secondary provider. -/
theorem retry_policy :
    (∀ (α : Type) (st : CacheState α) (now : ℤ) (fE fS : ℕ → FetchOutcome α) (df : α)
      (t : ℤ), st.cache = some df → st.cacheTime = some t → now - t < STOCK_CACHE_TTL →
      _get_stock_data st now fE fS = (.ok df, st, [])) ∧
    (∀ (α : Type) (fE fS : ℕ → FetchOutcome α),
      (∀ i, i < MAX_RETRIES → isFailure (fE i) = true) →
      (∀ i, i < MAX_RETRIES → isFailure (fS i) = true) →
      ∃ e, _get_stock_data_with_retry fE fS =
        (.error e,
          [.attempt .eastmoney 0, .sleep RETRY_DELAY, .attempt .eastmoney 1,
            .sleep RETRY_DELAY, .attempt .eastmoney 2, .attempt .sina 0,
            .sleep RETRY_DELAY, .attempt .sina 1, .sleep RETRY_DELAY,
            .attempt .sina 2]) ∧ failErr (fS 2) = some e) ∧
    (∀ (α : Type) (fE fS : ℕ → FetchOutcome α) (e : PyErr),
      (_get_stock_data_with_retry fE fS).1 = .error e →
      (∀ i, i < MAX_RETRIES → ∀ df, fE i ≠ .ok df) ∧
      (∀ i, i < MAX_RETRIES → ∀ df, fS i ≠ .ok df)) ∧
    (∀ (α : Type) (st : CacheState α) (now : ℤ) (f : FetchOutcome α),
      (∀ df t, st.cache = some df → st.cacheTime = some t → CACHE_TTL ≤ now - t) →
      (_get_lof_data st now f).2.2 = [.attempt .eastmoney 0]) := by
  refine ⟨?_, ?_, ?_, ?_⟩
  · intro α st now fE fS df t hdf ht hfresh
    obtain ⟨cache, cacheTime⟩ := st
    simp only at hdf ht
    subst hdf
    subst ht
    show (if now - t < STOCK_CACHE_TTL then
        ((Except.ok df : Except PyErr α), (⟨some df, some t⟩ : CacheState α),
          ([] : List FetchEv))
      else _get_stock_data_refresh ⟨some df, some t⟩ now fE fS) = _
    rw [if_pos hfresh]
  · intro α fE fS hE hS
    exact with_retry_allfail fE fS hE hS
  · intro α fE fS e herr
    rw [_get_stock_data_with_retry] at herr
    cases htE : (try_provider .eastmoney fE 0 MAX_RETRIES none).result with
    | some df => rw [htE] at herr; simp at herr
    | none =>
      rw [htE] at herr
      dsimp only at herr
      cases htS : (try_provider .sina fS 0 MAX_RETRIES
          (try_provider .eastmoney fE 0 MAX_RETRIES none).lastErr).result with
      | some df => rw [htS] at herr; simp at herr
      | none =>
        refine ⟨fun i hi df => ?_, fun i hi df => ?_⟩
        · exact try_provider_result_none .eastmoney fE MAX_RETRIES 0 none htE i
            (by omega) (by omega) df
        · exact try_provider_result_none .sina fS MAX_RETRIES 0
            (try_provider .eastmoney fE 0 MAX_RETRIES none).lastErr htS i
            (by omega) (by omega) df
  · intro α st now f hstale
    obtain ⟨cache, cacheTime⟩ := st
    have htrace : (_get_lof_data_refresh (⟨cache, cacheTime⟩ : CacheState α) now f).2.2 =
        [.attempt .eastmoney 0] := by
      cases f with
      | ok df => rfl
      | timeout => cases cache <;> rfl
      | exc c => rfl
    cases cache with
    | none => cases cacheTime with
      | none => exact htrace
      | some t => exact htrace
    | some df =>
      cases cacheTime with
      | none => exact htrace
      | some t =>
        have hst := not_lt.mpr (hstale df t rfl rfl)
        show ((if now - t < CACHE_TTL then
            ((Except.ok df : Except PyErr α), (⟨some df, some t⟩ : CacheState α),
              ([] : List FetchEv))
          else _get_lof_data_refresh ⟨some df, some t⟩ now f)).2.2 = _
        rw [if_neg hst]
        exact htrace

/-- Witness for the amended C7: every eastmoney attempt times out, every sina
attempt raises; the six attempts and four sleeps appear in order and the
final sina error is raised. -/
theorem retry_policy_witness :
    ∃ e, _get_stock_data_with_retry (fun _ => (.timeout : FetchOutcome ℕ))
        (fun _ => .exc 9) =
      (.error e,
        [.attempt .eastmoney 0, .sleep RETRY_DELAY, .attempt .eastmoney 1,
          .sleep RETRY_DELAY, .attempt .eastmoney 2, .attempt .sina 0,
          .sleep RETRY_DELAY, .attempt .sina 1, .sleep RETRY_DELAY,
          .attempt .sina 2]) ∧
      failErr ((fun _ => (.exc 9 : FetchOutcome ℕ)) 2) = some e :=
  retry_policy.2.1 ℕ (fun _ => .timeout) (fun _ => .exc 9)
    (fun _ _ => rfl) (fun _ _ => rfl)

/-! ## C10: `get_lof_history` -/

/-- C10 (confirmed).  On the modelled domain `get_lof_history` is a total
function into `Option` (the timeout and the generic exception are both
caught; no other subexpression raises): a timeout, a provider error, a `None`
frame or an empty frame all yield `None`; a non-empty frame of `n` rows
yields the trailing `min days n` rows — hence at most `days` records — each
the image of its source row under `rowToRec`, i.e. carrying the eight fixed
keys with every numeric cell safe-float-normalised (with default `0`, also
used when the column is missing). -/
theorem get_lof_history_spec (outcome : FetchOutcome (Option (List LofHistRow)))
    (days : ℕ) :
    (outcome = .timeout → get_lof_history outcome days = none) ∧
    (∀ c, outcome = .exc c → get_lof_history outcome days = none) ∧
    (outcome = .ok none → get_lof_history outcome days = none) ∧
    (outcome = .ok (some []) → get_lof_history outcome days = none) ∧
    (∀ rows, rows ≠ [] → outcome = .ok (some rows) →
      get_lof_history outcome days = some ((tailRows rows days).map rowToRec) ∧
      ((tailRows rows days).map rowToRec).length = min days rows.length ∧
      ∀ r ∈ (tailRows rows days).map rowToRec, ∃ row ∈ rows, r = rowToRec row) := by
  refine ⟨?_, ?_, ?_, ?_, ?_⟩
  · rintro rfl; rfl
  · rintro c rfl; rfl
  · rintro rfl; rfl
  · rintro rfl; rfl
  · rintro rows hne rfl
    refine ⟨?_, ?_, ?_⟩
    · rw [get_lof_history, if_neg hne]
    · rw [List.length_map, tailRows, List.length_drop]
      omega
    · intro r hr
      rw [List.mem_map] at hr
      obtain ⟨row, hrow, hre⟩ := hr
      exact ⟨row, List.drop_subset _ _ hrow, hre.symm⟩

/-- Witness for C10: a timeout yields `None`; a one-row frame yields exactly
that row's record, with the change-rate cell (a numeric string) parsed and
the missing-column default not involved. -/
theorem get_lof_history_spec_witness :
    get_lof_history .timeout 30 = none ∧
    get_lof_history (.ok (some [sampleRow])) 30 = some [rowToRec sampleRow] ∧
    (rowToRec sampleRow).change_rate = 3 / 2 := by
  refine ⟨(get_lof_history_spec .timeout 30).1 rfl, ?_, by decide⟩
  have h := ((get_lof_history_spec (.ok (some [sampleRow])) 30).2.2.2.2 [sampleRow]
    (by simp) rfl).1
  rw [h]
  rfl
